import Mathlib

/-
Verification of the FRbox face-recognition service.

Shallow embedding of the request-processing core:
  app/similarity.py  — normalize_embedding, cosine_similarity, verify_match
  app/face.py        — IMAGE_MAGIC_BYTES, validate_image_format, resize_image,
                       extract_embedding (zero-vector fallback)
  app/api.py         — check_rate_limit, the /verify dimension validation
  app/middleware.py  — APIKeyMiddleware, RequestSizeLimitMiddleware,
                       SecurityHeadersMiddleware, LoggingMiddleware
  app/main.py        — the middleware stack order
  app/config.py      — Settings

Floating-point vectors are modelled over the reals, float timestamps over the
rationals.  Machine floats carry no overflow in the ranges exercised here; the
spec itself frames the similarity properties "modeled over the reals".
-/

/-! ## Similarity engine (app/similarity.py) -/

/-- `np.dot` on two 1-D arrays: sum of pointwise products. -/
def dot (a b : List ℝ) : ℝ := (List.zipWith (fun x y => x * y) a b).sum

/-- `np.linalg.norm`: Euclidean norm, the square root of the self dot product. -/
noncomputable def norm2 (v : List ℝ) : ℝ := Real.sqrt (dot v v)

/-- `similarity.normalize_embedding`: divide by the norm, but return the input
unchanged when the norm is zero. -/
noncomputable def normalize_embedding (v : List ℝ) : List ℝ :=
  if norm2 v = 0 then v else v.map (fun x => x / norm2 v)

/-- `similarity.cosine_similarity`: normalize both inputs, then dot product. -/
noncomputable def cosine_similarity (embedding_a embedding_b : List ℝ) : ℝ :=
  dot (normalize_embedding embedding_a) (normalize_embedding embedding_b)

/-- `similarity.verify_match`: returns `(is_match, confidence)` where
`confidence = cosine_similarity a b` and `is_match = (confidence >= threshold)`.
The boolean of the source is modelled as the corresponding proposition. -/
noncomputable def verify_match (embedding_a embedding_b : List ℝ) (threshold : ℝ) :
    Prop × ℝ :=
  (cosine_similarity embedding_a embedding_b ≥ threshold,
   cosine_similarity embedding_a embedding_b)

/-! ## Settings (app/config.py) -/

/-- `config.Settings`: environment-driven configuration.  Float-valued entries
are modelled over the rationals; list-valued entries keep their source order. -/
structure Settings where
  MAX_IMAGE_SIZE : Nat
  MAX_IMAGE_WIDTH : Nat
  MAX_FACES : Nat
  EMBEDDING_DIM : Nat
  SIMILARITY_THRESHOLD : ℚ
  API_KEYS : List String
  ALLOWED_ORIGINS : List String
  RATE_LIMIT_PER_MINUTE : Nat

/-- The defaults of `config.Settings.__init__` when no environment variable
overrides them. -/
def defaultSettings : Settings :=
  { MAX_IMAGE_SIZE := 2097152
    MAX_IMAGE_WIDTH := 640
    MAX_FACES := 1
    EMBEDDING_DIM := 128
    SIMILARITY_THRESHOLD := 85 / 100
    API_KEYS := []
    ALLOWED_ORIGINS := []
    RATE_LIMIT_PER_MINUTE := 60 }

/-! ## Ingress middleware (app/middleware.py, app/main.py)

A request is modelled by the attributes the middleware reads.  `apiKey` is the
`X-API-Key` header: `none` when the header is absent, `some v` when present
with value `v` (possibly the empty string).  `contentLength` is the declared
`content-length` header; `bodySize` is the actual body size, which no
middleware reads.  A response is modelled by its short-circuit status. -/

structure Request where
  path : String
  method : String
  contentLength : Option Nat
  apiKey : Option String
  bodySize : Nat

inductive Response where
  | success
  | unauthorized
  | forbidden
  | payloadTooLarge
deriving DecidableEq

/-- `APIKeyMiddleware.EXEMPT_PATHS`. -/
def EXEMPT_PATHS : List String := ["/health", "/docs", "/redoc", "/openapi.json"]

/-- `middleware.APIKeyMiddleware.dispatch`.  Mirrors the source checks in
order: exempt path, OPTIONS preflight, empty configured key list, then
`if not api_key` (true for an absent header and for an empty header value,
per Python truthiness) yielding 401, then `api_key not in settings.API_KEYS`
yielding 403, else pass through. -/
def apiKeyMiddleware (s : Settings) (next : Request → Response) (req : Request) :
    Response :=
  if req.path ∈ EXEMPT_PATHS then next req
  else if req.method = "OPTIONS" then next req
  else if s.API_KEYS = [] then next req
  else
    match req.apiKey with
    | none => Response.unauthorized
    | some k =>
      if k = "" then Response.unauthorized
      else if k ∈ s.API_KEYS then next req
      else Response.forbidden

/-- `middleware.RequestSizeLimitMiddleware.dispatch`: reject with 413 when the
declared content length exceeds `MAX_IMAGE_SIZE`; a request without the header
passes through unconditionally.  The body itself is never read. -/
def requestSizeLimitMiddleware (s : Settings) (next : Request → Response)
    (req : Request) : Response :=
  match req.contentLength with
  | some size => if size > s.MAX_IMAGE_SIZE then Response.payloadTooLarge else next req
  | none => next req

/-- `middleware.SecurityHeadersMiddleware.dispatch`: adds fixed response
headers; the short-circuit status is unchanged. -/
def securityHeadersMiddleware (next : Request → Response) (req : Request) :
    Response := next req

/-- `middleware.LoggingMiddleware.dispatch`: logs and passes through. -/
def loggingMiddleware (next : Request → Response) (req : Request) : Response :=
  next req

/-- The CORS middleware added first in `main.py`; pass-through for the
statuses modelled here. -/
def corsMiddleware (next : Request → Response) (req : Request) : Response :=
  next req

/-- The middleware stack of `main.py`.  `add_middleware` is called with
CORS, SecurityHeaders, APIKey, RequestSizeLimit, Logging in that order, and
the last middleware added executes first on the request path, so a request
traverses Logging, then RequestSizeLimit, then APIKey, then SecurityHeaders,
then CORS, then the route handler. -/
def middlewareStack (s : Settings) (handler : Request → Response) :
    Request → Response :=
  loggingMiddleware
    (requestSizeLimitMiddleware s
      (apiKeyMiddleware s
        (securityHeadersMiddleware
          (corsMiddleware handler))))

/-! ## Rate limiter (app/api.py) -/

/-- The pruning step of `api.check_rate_limit`: keep the timestamps of the
trailing 60-second window, `req_time > now - 60`. -/
def pruneWindow (store : List ℚ) (now : ℚ) : List ℚ :=
  store.filter (fun t => t > now - 60)

/-- `api.check_rate_limit` for one client: prune the stored window, reject
when the pruned count has reached `RATE_LIMIT_PER_MINUTE`, otherwise admit
and append the current timestamp.  Returns (admitted?, new window). -/
def check_rate_limit (limit : Nat) (store : List ℚ) (now : ℚ) : Bool × List ℚ :=
  let pruned := pruneWindow store now
  if pruned.length ≥ limit then (false, pruned)
  else (true, pruned ++ [now])

/-- Runs `check_rate_limit` over a sequence of request timestamps for one
client, threading the window; returns the admission decisions and the final
window. -/
def processRequests (limit : Nat) : List ℚ → List ℚ → List Bool × List ℚ
  | store, [] => ([], store)
  | store, t :: ts =>
    let r := check_rate_limit limit store t
    let rest := processRequests limit r.2 ts
    (r.1 :: rest.1, rest.2)

/-! ## Image codec and embedder adapter (app/face.py) -/

/-- `face.IMAGE_MAGIC_BYTES`: leading magic sequences in source (insertion)
order, with their MIME types. -/
def IMAGE_MAGIC_BYTES : List (List Nat × String) :=
  [([0xFF, 0xD8, 0xFF], "image/jpeg"),
   ([0x89, 0x50, 0x4E, 0x47, 0x0D, 0x0A, 0x1A, 0x0A], "image/png"),
   ([0x47, 0x49, 0x46, 0x38], "image/gif"),
   ([0x52, 0x49, 0x46, 0x46], "image/webp")]

/-- `face.validate_image_format`: return the MIME type of the first table
entry whose magic bytes lead the stream; `none` models the `ValueError`
(`UnsupportedFormat`) raised when no entry matches. -/
def validate_image_format (image_bytes : List Nat) : Option String :=
  (IMAGE_MAGIC_BYTES.find? (fun p => p.1.isPrefixOf image_bytes)).map
    (fun p => p.2)

/-- The shape of a decoded image: `image.shape[:2]` is `(height, width)`. -/
structure ImageShape where
  height : Nat
  width : Nat
deriving DecidableEq

/-- `face.resize_image` on the shape level: identity when the width already
fits, otherwise scale by the exact ratio `max_width / width` and round the
new height down (`int(height * scale)` on a nonnegative value). -/
def resize_image (image : ImageShape) (max_width : Nat) : ImageShape :=
  if image.width ≤ max_width then image
  else
    let scale : ℚ := (max_width : ℚ) / (image.width : ℚ)
    { height := ⌊(image.height : ℚ) * scale⌋₊, width := max_width }

/-- `face.extract_embedding`, parametrised by the result of the external
`face_recognition.face_encodings` capability: on an empty result it returns
`np.zeros(128)` (the literal 128 of the source), otherwise the first
encoding.  It never raises. -/
def extract_embedding (encodings : List (List ℝ)) : List ℝ :=
  match encodings with
  | [] => List.replicate 128 0
  | e :: _ => e

/-! ## The /verify handler's dimension validation (app/api.py) -/

/-- Outcome of the `/verify` handler's validation and delegation step. -/
inductive VerifyOutcome where
  | dimensionMismatch (detail : String)
  | success (is_match : Prop) (confidence : ℝ)

/-- `api.verify_face`, restricted to the dimension validation and the
delegation to `similarity.verify_match`: embedding_a is checked first, then
embedding_b, each against `EMBEDDING_DIM`, with the 400 detail string of the
source; on success the handler returns the pair computed by `verify_match`. -/
noncomputable def verify_face (s : Settings) (embedding_a embedding_b : List ℝ)
    (threshold : ℝ) : VerifyOutcome :=
  if embedding_a.length ≠ s.EMBEDDING_DIM then
    VerifyOutcome.dimensionMismatch
      ("embedding_a must have " ++ toString s.EMBEDDING_DIM ++
       " dimensions, got " ++ toString embedding_a.length)
  else if embedding_b.length ≠ s.EMBEDDING_DIM then
    VerifyOutcome.dimensionMismatch
      ("embedding_b must have " ++ toString s.EMBEDDING_DIM ++
       " dimensions, got " ++ toString embedding_b.length)
  else
    VerifyOutcome.success (verify_match embedding_a embedding_b threshold).1
      (verify_match embedding_a embedding_b threshold).2

/-! ## Concrete fixtures used by counterexamples and witnesses -/

/-- Settings with one configured API key. -/
def keyedSettings : Settings := { defaultSettings with API_KEYS := ["secret"] }

/-- Settings with a non-default embedding dimension. -/
def smallDimSettings : Settings := { defaultSettings with EMBEDDING_DIM := 64 }

/-- A route handler that always succeeds. -/
def okHandler : Request → Response := fun _ => Response.success

/-- A non-exempt POST request whose `X-API-Key` header is present but empty. -/
def emptyKeyRequest : Request :=
  { path := "/verify", method := "POST", contentLength := none,
    apiKey := some "", bodySize := 0 }

/-- A non-exempt POST request with the configured key. -/
def goodKeyRequest : Request :=
  { path := "/verify", method := "POST", contentLength := none,
    apiKey := some "secret", bodySize := 0 }

/-- A non-exempt POST request with an oversized declared content length and no
`X-API-Key` header. -/
def oversizedNoKeyRequest : Request :=
  { path := "/verify", method := "POST", contentLength := some 3000000,
    apiKey := none, bodySize := 3000000 }

/-- A request without a `content-length` header but a huge actual body. -/
def noLengthRequest : Request :=
  { path := "/verify", method := "POST", contentLength := none,
    apiKey := some "secret", bodySize := 100000000 }

/-! ## Helper lemmas -/

theorem dot_cons (x y : ℝ) (a b : List ℝ) :
    dot (x :: a) (y :: b) = x * y + dot a b := by
  simp [dot]

theorem dot_self_nonneg (v : List ℝ) : 0 ≤ dot v v := by
  induction v with
  | nil => simp [dot]
  | cons x xs ih =>
    rw [dot_cons]
    exact add_nonneg (mul_self_nonneg x) ih

theorem dot_map_div (c : ℝ) (a b : List ℝ) :
    dot (a.map (fun x => x / c)) (b.map (fun x => x / c)) = dot a b / (c * c) := by
  induction a generalizing b with
  | nil => simp [dot]
  | cons x xs ih =>
    cases b with
    | nil => simp [dot]
    | cons y ys =>
      simp only [List.map_cons, dot_cons, ih]
      rw [div_mul_div_comm, div_add_div_same]

theorem dot_self_pos_of_mem (v : List ℝ) (x : ℝ) (hx : x ∈ v) (hx0 : x ≠ 0) :
    0 < dot v v := by
  induction v with
  | nil => cases hx
  | cons y ys ih =>
    rw [dot_cons]
    rcases List.mem_cons.mp hx with h | h
    · subst h
      exact add_pos_of_pos_of_nonneg (mul_self_pos.mpr hx0) (dot_self_nonneg ys)
    · exact add_pos_of_nonneg_of_pos (mul_self_nonneg y) (ih h)

theorem cosine_similarity_self (v : List ℝ) (h : dot v v ≠ 0) :
    cosine_similarity v v = 1 := by
  have hpos : 0 < dot v v := lt_of_le_of_ne (dot_self_nonneg v) (Ne.symm h)
  have hnorm : norm2 v ≠ 0 := by
    rw [norm2, Real.sqrt_ne_zero']
    exact hpos
  unfold cosine_similarity normalize_embedding
  rw [if_neg hnorm, dot_map_div, norm2, Real.mul_self_sqrt (dot_self_nonneg v)]
  exact div_self h

theorem dot_replicate_zero (n : Nat) :
    dot (List.replicate n (0 : ℝ)) (List.replicate n (0 : ℝ)) = 0 := by
  induction n with
  | zero => simp [dot]
  | succ k ih => simp [List.replicate_succ, dot_cons, ih]

/-! ## Claim theorems -/

/-- C9: for every nonzero vector v, `cosine_similarity v v` equals 1 exactly
when modelled over the reals: both arguments are normalized to unit length
before the dot product. -/
theorem cosine_similarity_self_eq_one (v : List ℝ) (h : ∃ x ∈ v, x ≠ 0) :
    cosine_similarity v v = 1 := by
  obtain ⟨x, hx, hx0⟩ := h
  exact cosine_similarity_self v (dot_self_pos_of_mem v x hx hx0).ne'

/-- Witness for C9 at the concrete nonzero vector [3, 4]. -/
theorem cosine_similarity_self_eq_one_witness :
    cosine_similarity [(3 : ℝ), 4] [(3 : ℝ), 4] = 1 :=
  cosine_similarity_self_eq_one [(3 : ℝ), 4] ⟨3, by simp, by norm_num⟩

/-- C1 (amended): for every pair of identical NONZERO vectors of length 128,
`verify_match v v 0.90` returns match = true and confidence = 1.  (The
all-zero vector of length 128 is excluded: there `normalize_embedding` keeps
the zero vector and the confidence is 0, see the counterexample.) -/
theorem verify_match_identical_nonzero (v : List ℝ) (_hlen : v.length = 128)
    (h : dot v v ≠ 0) :
    (verify_match v v (9 / 10)).1 ∧ (verify_match v v (9 / 10)).2 = 1 := by
  have hc := cosine_similarity_self v h
  constructor
  · show cosine_similarity v v ≥ 9 / 10
    rw [hc]; norm_num
  · show cosine_similarity v v = 1
    exact hc

/-- Witness for C1 (amended) at the unit vector e1 of length 128. -/
theorem verify_match_identical_nonzero_witness :
    ((1 : ℝ) :: List.replicate 127 0).length = 128 ∧
    dot ((1 : ℝ) :: List.replicate 127 0) ((1 : ℝ) :: List.replicate 127 0) ≠ 0 ∧
    ((verify_match ((1 : ℝ) :: List.replicate 127 0)
        ((1 : ℝ) :: List.replicate 127 0) (9 / 10)).1 ∧
      (verify_match ((1 : ℝ) :: List.replicate 127 0)
        ((1 : ℝ) :: List.replicate 127 0) (9 / 10)).2 = 1) := by
  have hd : dot ((1 : ℝ) :: List.replicate 127 0)
      ((1 : ℝ) :: List.replicate 127 0) = 1 := by
    rw [dot_cons, dot_replicate_zero]; norm_num
  refine ⟨by simp, by rw [hd]; norm_num, ?_⟩
  exact verify_match_identical_nonzero ((1 : ℝ) :: List.replicate 127 0)
    (by simp) (by rw [hd]; norm_num)

/-- C1 counterexample: the all-zero vector of length 128 is an identical pair
of length-128 vectors, yet `verify_match z z 0.90` returns confidence 0 and
match = false, refuting the claim as stated for every identical pair. -/
theorem verify_match_zero_vector_counterexample :
    (List.replicate 128 (0 : ℝ)).length = 128 ∧
    (verify_match (List.replicate 128 (0 : ℝ)) (List.replicate 128 (0 : ℝ))
      (9 / 10)).2 = 0 ∧
    ¬ (verify_match (List.replicate 128 (0 : ℝ)) (List.replicate 128 (0 : ℝ))
      (9 / 10)).1 ∧
    (0 : ℝ) ≠ 1 := by
  have hz : cosine_similarity (List.replicate 128 (0 : ℝ))
      (List.replicate 128 (0 : ℝ)) = 0 := by
    unfold cosine_similarity normalize_embedding
    rw [norm2, dot_replicate_zero, Real.sqrt_zero, if_pos rfl, dot_replicate_zero]
  refine ⟨by simp, hz, ?_, by norm_num⟩
  show ¬ (cosine_similarity _ _ ≥ 9 / 10)
  rw [hz]; norm_num

/-- C2 counterexample: with `EMBEDDING_DIM = 64`, the zero-vector fallback of
`extract_embedding` still has length 128 (the hard-coded literal of the
source), not the configured `embedding_dim`. -/
theorem extract_embedding_dim_counterexample :
    smallDimSettings.EMBEDDING_DIM = 64 ∧
    (extract_embedding []).length = 128 ∧
    (extract_embedding []).length ≠ smallDimSettings.EMBEDDING_DIM := by
  refine ⟨rfl, ?_, ?_⟩
  · simp [extract_embedding]
  · simp [extract_embedding, smallDimSettings, defaultSettings]

/-- C2 (amended): when the capability returns no encodings, the embed
operation does not fail and returns a zero-filled vector of the fixed length
128, which equals the configured `embedding_dim` only when that setting is
128 (its default). -/
theorem extract_embedding_fallback (s : Settings) (hdim : s.EMBEDDING_DIM = 128) :
    (extract_embedding []).length = s.EMBEDDING_DIM ∧
    ∀ x ∈ extract_embedding [], x = 0 := by
  rw [hdim]
  refine ⟨by simp [extract_embedding], ?_⟩
  intro x hx
  simp only [extract_embedding] at hx
  exact List.eq_of_mem_replicate hx

/-- Witness for C2 (amended) at the default settings. -/
theorem extract_embedding_fallback_witness :
    (extract_embedding []).length = defaultSettings.EMBEDDING_DIM ∧
    ∀ x ∈ extract_embedding [], x = 0 :=
  extract_embedding_fallback defaultSettings rfl

/-- C8: `resize_image` is the identity when the width already fits; otherwise
it returns width exactly `max_width` and height
`floor(height * (max_width / width))`, the scale being the exact ratio, which
equals the natural-number division `height * max_width / width`. -/
theorem resize_image_spec (image : ImageShape) (max_width : Nat) :
    (image.width ≤ max_width → resize_image image max_width = image) ∧
    (max_width < image.width →
      (resize_image image max_width).width = max_width ∧
      (resize_image image max_width).height =
        image.height * max_width / image.width) := by
  constructor
  · intro h
    simp [resize_image, h]
  · intro h
    have hne : ¬ image.width ≤ max_width := Nat.not_le.mpr h
    unfold resize_image
    rw [if_neg hne]
    refine ⟨rfl, ?_⟩
    show ⌊(image.height : ℚ) * ((max_width : ℚ) / (image.width : ℚ))⌋₊ =
      image.height * max_width / image.width
    rw [mul_div_assoc', ← Nat.cast_mul, Nat.floor_div_nat, Nat.floor_natCast]

/-- Witness for C8: identity at 100x100 with max_width 150, and exact scaled
shape at 100x200 with max_width 150. -/
theorem resize_image_spec_witness :
    resize_image ⟨100, 100⟩ 150 = ⟨100, 100⟩ ∧
    (resize_image ⟨100, 200⟩ 150).width = 150 ∧
    (resize_image ⟨100, 200⟩ 150).height = 100 * 150 / 200 :=
  ⟨(resize_image_spec ⟨100, 100⟩ 150).1 (by decide),
   (resize_image_spec ⟨100, 200⟩ 150).2 (by decide)⟩

/-- C3 counterexample: with keys configured (`keyedSettings`) and a request
whose declared content length 3000000 exceeds `MAX_IMAGE_SIZE` = 2097152 and
which omits `X-API-Key`, the middleware stack short-circuits with
`payloadTooLarge`, not `unauthorized`: the size guard executes before the
auth stage. -/
theorem middleware_order_counterexample :
    keyedSettings.API_KEYS ≠ [] ∧
    oversizedNoKeyRequest.apiKey = none ∧
    oversizedNoKeyRequest.contentLength = some 3000000 ∧
    3000000 > keyedSettings.MAX_IMAGE_SIZE ∧
    middlewareStack keyedSettings okHandler oversizedNoKeyRequest =
      Response.payloadTooLarge ∧
    Response.payloadTooLarge ≠ Response.unauthorized := by
  refine ⟨by decide, rfl, rfl, by decide, ?_, by decide⟩
  rfl

/-- C3 (amended): the request-size guard middleware is added after the auth
middleware and therefore executes first on the request path; for every
request whose declared content length exceeds `MAX_IMAGE_SIZE` — even one
that omits `X-API-Key` while keys are configured — the short-circuiting
response is `payloadTooLarge`, not `unauthorized`. -/
theorem middleware_size_guard_first (s : Settings) (handler : Request → Response)
    (req : Request) (n : Nat)
    (_hkeys : s.API_KEYS ≠ []) (_hnokey : req.apiKey = none)
    (hcl : req.contentLength = some n) (hover : n > s.MAX_IMAGE_SIZE) :
    middlewareStack s handler req = Response.payloadTooLarge := by
  unfold middlewareStack loggingMiddleware requestSizeLimitMiddleware
  rw [hcl]
  simp [hover]

/-- Witness for C3 (amended) at the concrete fixtures. -/
theorem middleware_size_guard_first_witness :
    middlewareStack keyedSettings okHandler oversizedNoKeyRequest =
      Response.payloadTooLarge :=
  middleware_size_guard_first keyedSettings okHandler oversizedNoKeyRequest
    3000000 (by decide) rfl rfl (by decide)

/-- C5 counterexample: with keys configured, a non-exempt request whose
`X-API-Key` header is present but empty carries a key that is not in the
configured set, yet the auth stage answers `unauthorized` (the source's
`if not api_key` treats the empty value as missing), not `forbidden` as the
claim requires for every key outside the set. -/
theorem apiKey_empty_key_counterexample :
    emptyKeyRequest.apiKey = some "" ∧
    emptyKeyRequest.path ∉ EXEMPT_PATHS ∧
    emptyKeyRequest.method ≠ "OPTIONS" ∧
    "" ∉ keyedSettings.API_KEYS ∧
    apiKeyMiddleware keyedSettings okHandler emptyKeyRequest =
      Response.unauthorized ∧
    Response.unauthorized ≠ Response.forbidden := by
  refine ⟨rfl, by decide, by decide, by decide, ?_, by decide⟩
  rfl

/-- C5 (amended): for every non-exempt, non-preflight request: with no keys
configured the auth stage passes the request through; with keys configured, a
request whose `X-API-Key` header is absent — or present but empty — is
rejected `unauthorized`, a request with a nonempty key outside the configured
set is rejected `forbidden`, and a request with a nonempty key in the set
passes through. -/
theorem apiKeyMiddleware_spec (s : Settings) (next : Request → Response)
    (req : Request) (hpath : req.path ∉ EXEMPT_PATHS)
    (hmethod : req.method ≠ "OPTIONS") :
    (s.API_KEYS = [] → apiKeyMiddleware s next req = next req) ∧
    (s.API_KEYS ≠ [] → req.apiKey = none →
      apiKeyMiddleware s next req = Response.unauthorized) ∧
    (s.API_KEYS ≠ [] → req.apiKey = some "" →
      apiKeyMiddleware s next req = Response.unauthorized) ∧
    (∀ k, s.API_KEYS ≠ [] → req.apiKey = some k → k ≠ "" → k ∉ s.API_KEYS →
      apiKeyMiddleware s next req = Response.forbidden) ∧
    (∀ k, s.API_KEYS ≠ [] → req.apiKey = some k → k ≠ "" → k ∈ s.API_KEYS →
      apiKeyMiddleware s next req = next req) := by
  unfold apiKeyMiddleware
  rw [if_neg hpath, if_neg hmethod]
  refine ⟨fun hk => by rw [if_pos hk], ?_, ?_, ?_, ?_⟩
  · intro hk hnone
    rw [if_neg hk, hnone]
  · intro hk hempty
    rw [if_neg hk, hempty]
    simp
  · intro k hk hsome hke hkmem
    rw [if_neg hk, hsome]
    simp [hke, hkmem]
  · intro k hk hsome hke hkmem
    rw [if_neg hk, hsome]
    simp [hke, hkmem]

/-- Witness for C5 (amended): the configured key "secret" passes through. -/
theorem apiKeyMiddleware_spec_witness :
    apiKeyMiddleware keyedSettings okHandler goodKeyRequest =
      okHandler goodKeyRequest :=
  (apiKeyMiddleware_spec keyedSettings okHandler goodKeyRequest
    (by decide) (by decide)).2.2.2.2 "secret" (by decide) rfl (by decide)
    (by decide)

/-- Reduction of the size guard when a content length is declared. -/
theorem sizeLimit_some (s : Settings) (next : Request → Response) (req : Request)
    (n : Nat) (h : req.contentLength = some n) :
    requestSizeLimitMiddleware s next req =
      if n > s.MAX_IMAGE_SIZE then Response.payloadTooLarge else next req := by
  unfold requestSizeLimitMiddleware
  rw [h]

/-- Reduction of the size guard when no content length is declared. -/
theorem sizeLimit_none (s : Settings) (next : Request → Response) (req : Request)
    (h : req.contentLength = none) :
    requestSizeLimitMiddleware s next req = next req := by
  unfold requestSizeLimitMiddleware
  rw [h]

/-- Characterization of the size guard's rejection, for any downstream that
never itself answers 413: the guard rejects exactly when a `content-length`
header is declared and exceeds the limit.  (Helper for the C10 theorem.) -/
theorem requestSizeLimit_reject_iff (s : Settings) (next : Request → Response)
    (req : Request) (hnext : ∀ r, next r ≠ Response.payloadTooLarge) :
    requestSizeLimitMiddleware s next req = Response.payloadTooLarge ↔
      ∃ n, req.contentLength = some n ∧ n > s.MAX_IMAGE_SIZE := by
  constructor
  · intro h
    cases hcl : req.contentLength with
    | none =>
      rw [sizeLimit_none s next req hcl] at h
      exact absurd h (hnext req)
    | some n =>
      by_cases hgt : n > s.MAX_IMAGE_SIZE
      · exact ⟨n, rfl, hgt⟩
      · rw [sizeLimit_some s next req n hcl, if_neg hgt] at h
        exact absurd h (hnext req)
  · rintro ⟨n, hn, hgt⟩
    rw [sizeLimit_some s next req n hn, if_pos hgt]

/-- C10: the request-size guard rejects with `payloadTooLarge` exactly when a
`content-length` header is declared and exceeds `MAX_IMAGE_SIZE`; a request
without the header always passes through, and the rejection is invariant
under the actual body size, which the guard never reads. -/
theorem requestSizeLimit_spec (s : Settings) (next : Request → Response)
    (req : Request) :
    (req.contentLength = none →
      requestSizeLimitMiddleware s next req = next req) ∧
    (∀ n, req.contentLength = some n → n ≤ s.MAX_IMAGE_SIZE →
      requestSizeLimitMiddleware s next req = next req) ∧
    (∀ n, req.contentLength = some n → n > s.MAX_IMAGE_SIZE →
      requestSizeLimitMiddleware s next req = Response.payloadTooLarge) ∧
    ((∀ r, next r ≠ Response.payloadTooLarge) →
      (requestSizeLimitMiddleware s next req = Response.payloadTooLarge ↔
        ∃ n, req.contentLength = some n ∧ n > s.MAX_IMAGE_SIZE) ∧
      ∀ b, (requestSizeLimitMiddleware s next { req with bodySize := b } =
          Response.payloadTooLarge ↔
        requestSizeLimitMiddleware s next req = Response.payloadTooLarge)) := by
  refine ⟨?_, ?_, ?_, ?_⟩
  · intro hnone
    exact sizeLimit_none s next req hnone
  · intro n hsome hle
    rw [sizeLimit_some s next req n hsome, if_neg (Nat.not_lt.mpr hle)]
  · intro n hsome hgt
    rw [sizeLimit_some s next req n hsome, if_pos hgt]
  · intro hnext
    refine ⟨requestSizeLimit_reject_iff s next req hnext, ?_⟩
    intro b
    rw [requestSizeLimit_reject_iff s next req hnext,
      requestSizeLimit_reject_iff s next { req with bodySize := b } hnext]

/-- Witness for C10: a request with no `content-length` header and a huge body
passes through. -/
theorem requestSizeLimit_spec_witness :
    noLengthRequest.bodySize = 100000000 ∧
    requestSizeLimitMiddleware defaultSettings okHandler noLengthRequest =
      okHandler noLengthRequest :=
  ⟨rfl, (requestSizeLimit_spec defaultSettings okHandler noLengthRequest).1 rfl⟩

/-- C4: a request is admitted exactly when the pruned 60-second window holds
strictly fewer timestamps than the limit; an admitted request appends its
timestamp to the pruned window, a rejected one leaves the pruned window
without any new timestamp.  Concretely, with limit 5, six requests at
0, 10, 20, 30, 40, 50 seconds admit the first five and reject the sixth,
and a request at 111 seconds (after the window has cleared) is admitted. -/
theorem check_rate_limit_spec :
    (∀ (limit : Nat) (store : List ℚ) (now : ℚ),
      ((check_rate_limit limit store now).1 = true ↔
        (pruneWindow store now).length < limit) ∧
      ((check_rate_limit limit store now).1 = true →
        (check_rate_limit limit store now).2 = pruneWindow store now ++ [now]) ∧
      ((check_rate_limit limit store now).1 = false →
        (check_rate_limit limit store now).2 = pruneWindow store now)) ∧
    processRequests 5 [] [0, 10, 20, 30, 40, 50] =
      ([true, true, true, true, true, false], [0, 10, 20, 30, 40]) ∧
    (check_rate_limit 5 [0, 10, 20, 30, 40] 111).1 = true := by
  refine ⟨?_,
    by norm_num [processRequests, check_rate_limit, pruneWindow, List.filter],
    by norm_num [check_rate_limit, pruneWindow, List.filter]⟩
  intro limit store now
  unfold check_rate_limit
  by_cases h : (pruneWindow store now).length ≥ limit
  · rw [if_pos h]
    exact ⟨by simp [Nat.not_lt.mpr h], by simp, fun _ => rfl⟩
  · rw [if_neg h]
    exact ⟨by simp [Nat.lt_of_not_le h], fun _ => rfl, by simp⟩

/-- Witness for C4: the first request of an empty window is admitted and its
timestamp recorded. -/
theorem check_rate_limit_spec_witness :
    (check_rate_limit 5 [] 0).2 = pruneWindow [] 0 ++ [0] :=
  (check_rate_limit_spec.1 5 [] 0).2.1 (by decide)

/-- C6: a byte stream led by none of the four magic sequences fails format
validation (`none`, the `UnsupportedFormat` error), and a stream starting
with any of the four sequences is accepted with the corresponding MIME
type, whatever follows. -/
theorem validate_image_format_spec :
    (∀ bs : List Nat,
      (∀ p ∈ IMAGE_MAGIC_BYTES, p.1.isPrefixOf bs = false) →
      validate_image_format bs = none) ∧
    (∀ rest : List Nat,
      validate_image_format ([0xFF, 0xD8, 0xFF] ++ rest) = some "image/jpeg") ∧
    (∀ rest : List Nat,
      validate_image_format
        ([0x89, 0x50, 0x4E, 0x47, 0x0D, 0x0A, 0x1A, 0x0A] ++ rest) =
        some "image/png") ∧
    (∀ rest : List Nat,
      validate_image_format ([0x47, 0x49, 0x46, 0x38] ++ rest) =
        some "image/gif") ∧
    (∀ rest : List Nat,
      validate_image_format ([0x52, 0x49, 0x46, 0x46] ++ rest) =
        some "image/webp") := by
  refine ⟨?_, ?_, ?_, ?_, ?_⟩
  case refine_2 =>
    intro rest
    simp [validate_image_format, IMAGE_MAGIC_BYTES, List.find?, List.isPrefixOf]
  case refine_3 =>
    intro rest
    simp [validate_image_format, IMAGE_MAGIC_BYTES, List.find?, List.isPrefixOf]
  case refine_4 =>
    intro rest
    simp [validate_image_format, IMAGE_MAGIC_BYTES, List.find?, List.isPrefixOf]
  case refine_5 =>
    intro rest
    simp [validate_image_format, IMAGE_MAGIC_BYTES, List.find?, List.isPrefixOf]
  intro bs h
  unfold validate_image_format
  rw [List.find?_eq_none.mpr]
  · rfl
  · intro p hp
    simp [h p hp]

/-- Witness for C6: the single byte 0x00 matches no magic sequence and is
rejected. -/
theorem validate_image_format_spec_witness :
    validate_image_format [0x00] = none :=
  validate_image_format_spec.1 [0x00] (by decide)

/-- C7: with `EMBEDDING_DIM` = 128, a verify request whose first vector has
length 100 fails with the 400 detail string reporting "got 100"; a request
whose two vectors both have length 128 passes the check and is delegated to
the similarity engine's `verify_match`. -/
theorem verify_face_dimension_spec (s : Settings) (a b : List ℝ) (t : ℝ)
    (hdim : s.EMBEDDING_DIM = 128) :
    (a.length = 100 → b.length = 128 →
      verify_face s a b t = VerifyOutcome.dimensionMismatch
        "embedding_a must have 128 dimensions, got 100") ∧
    (a.length = 128 → b.length = 128 →
      verify_face s a b t =
        VerifyOutcome.success (verify_match a b t).1 (verify_match a b t).2) := by
  constructor
  · intro ha hb
    unfold verify_face
    rw [ha, hdim]
    norm_num
    rfl
  · intro ha hb
    unfold verify_face
    rw [ha, hb, hdim]
    norm_num

/-- Witness for C7 at concrete vectors of lengths 100 and 128, and at a pair
of length-128 vectors. -/
theorem verify_face_dimension_spec_witness :
    verify_face defaultSettings (List.replicate 100 0) (List.replicate 128 0)
      (9 / 10) = VerifyOutcome.dimensionMismatch
        "embedding_a must have 128 dimensions, got 100" ∧
    verify_face defaultSettings (List.replicate 128 1) (List.replicate 128 1)
      (9 / 10) = VerifyOutcome.success
        (verify_match (List.replicate 128 1) (List.replicate 128 1) (9 / 10)).1
        (verify_match (List.replicate 128 1) (List.replicate 128 1) (9 / 10)).2 :=
  ⟨(verify_face_dimension_spec defaultSettings (List.replicate 100 0)
      (List.replicate 128 0) (9 / 10) rfl).1 (by simp) (by simp),
   (verify_face_dimension_spec defaultSettings (List.replicate 128 1)
      (List.replicate 128 1) (9 / 10) rfl).2 (by simp) (by simp)⟩
